import Mathlib

/-!
Verification of the climate data acquisition pipeline
(`scripts/download_climate_data.py`): the chunked NASA POWER fetcher,
the daily-to-monthly aggregator, the derived-index calculator and the
collection orchestrator.  All numeric quantities are modelled over `ℚ`
(the Python code computes over floating point; the rational model is
the exact idealisation of the same arithmetic).  Python's `round` and
numpy/pandas `.round` round half to even, which `rhe` reproduces.
-/

namespace Climate

/-- Round half to even (banker's rounding), the tie-breaking rule used by
Python's `round` and numpy's `np.round`/pandas `.round`. -/
def rhe (x : ℚ) : ℤ :=
  if x - ⌊x⌋ < 1/2 then ⌊x⌋
  else if 1/2 < x - ⌊x⌋ then ⌊x⌋ + 1
  else if ⌊x⌋ % 2 = 0 then ⌊x⌋ else ⌊x⌋ + 1

/-- `round(x, n)` of Python: round `x` to `n` decimal places. -/
def roundTo (n : ℕ) (x : ℚ) : ℚ :=
  (rhe (x * 10 ^ n) : ℚ) / 10 ^ n

/-- pandas `Series.clip(lo, hi)` applied pointwise. -/
def clip (x lo hi : ℚ) : ℚ :=
  min (max x lo) hi

/-- `np.max` on a (nonempty in all uses) list. -/
def listMax : List ℚ → ℚ
  | [] => 0
  | x :: xs => xs.foldl max x

/-- `np.min` on a (nonempty in all uses) list. -/
def listMin : List ℚ → ℚ
  | [] => 0
  | x :: xs => xs.foldl min x

/-- `np.mean`: sum divided by length. -/
def listMean (l : List ℚ) : ℚ :=
  l.sum / l.length

theorem rhe_floor_le (x : ℚ) : ⌊x⌋ ≤ rhe x := by
  unfold rhe; split_ifs <;> omega

theorem rhe_le_floor_add_one (x : ℚ) : rhe x ≤ ⌊x⌋ + 1 := by
  unfold rhe; split_ifs <;> omega

theorem rhe_intCast (n : ℤ) : rhe (n : ℚ) = n := by
  unfold rhe
  rw [Int.floor_intCast]
  norm_num

theorem rhe_mono {x y : ℚ} (h : x ≤ y) : rhe x ≤ rhe y := by
  have hf : ⌊x⌋ ≤ ⌊y⌋ := Int.floor_le_floor h
  rcases lt_or_eq_of_le hf with hlt | heq
  · calc rhe x ≤ ⌊x⌋ + 1 := rhe_le_floor_add_one x
    _ ≤ ⌊y⌋ := by omega
    _ ≤ rhe y := rhe_floor_le y
  · have hfrac : x - ⌊x⌋ ≤ y - ⌊y⌋ := by
      rw [← heq]; exact sub_le_sub_right h _
    unfold rhe
    rw [← heq]
    split_ifs <;> first | omega | linarith

theorem rhe_nonneg {x : ℚ} (h : 0 ≤ x) : 0 ≤ rhe x := by
  have : (0 : ℤ) ≤ ⌊x⌋ := Int.floor_nonneg.mpr h
  calc (0 : ℤ) ≤ ⌊x⌋ := this
  _ ≤ rhe x := rhe_floor_le x

theorem rhe_le_of_le_intCast {x : ℚ} {n : ℤ} (h : x ≤ (n : ℚ)) : rhe x ≤ n := by
  calc rhe x ≤ rhe (n : ℚ) := rhe_mono h
  _ = n := rhe_intCast n

theorem roundTo_mono (n : ℕ) {x y : ℚ} (h : x ≤ y) : roundTo n x ≤ roundTo n y := by
  unfold roundTo
  have hpow : (0 : ℚ) < 10 ^ n := by positivity
  have : rhe (x * 10 ^ n) ≤ rhe (y * 10 ^ n) :=
    rhe_mono (mul_le_mul_of_nonneg_right h hpow.le)
  exact div_le_div_of_nonneg_right (by exact_mod_cast this) hpow.le

theorem roundTo_nonneg (n : ℕ) {x : ℚ} (h : 0 ≤ x) : 0 ≤ roundTo n x := by
  unfold roundTo
  have hpow : (0 : ℚ) < 10 ^ n := by positivity
  have : (0 : ℤ) ≤ rhe (x * 10 ^ n) := rhe_nonneg (by positivity)
  positivity

theorem roundTo_le_one (n : ℕ) {x : ℚ} (h : x ≤ 1) : roundTo n x ≤ 1 := by
  unfold roundTo
  have hpow : (0 : ℚ) < 10 ^ n := by positivity
  have hx : x * 10 ^ n ≤ ((10 ^ n : ℤ) : ℚ) := by
    push_cast
    nlinarith
  have := rhe_le_of_le_intCast hx
  rw [div_le_one hpow]
  exact_mod_cast this

theorem roundTo_eq_self {n : ℕ} {x : ℚ} {k : ℤ} (h : x * 10 ^ n = (k : ℚ)) :
    roundTo n x = x := by
  unfold roundTo
  rw [h, rhe_intCast, ← h]
  field_simp

theorem clip_nonneg (x : ℚ) : 0 ≤ clip x 0 1 := by
  unfold clip
  have h1 : (0 : ℚ) ≤ max x 0 := le_max_right x 0
  exact le_min h1 (by norm_num)

theorem clip_le_one (x : ℚ) : clip x 0 1 ≤ 1 := min_le_right _ _

theorem clip_of_mem {x lo hi : ℚ} (h1 : lo ≤ x) (h2 : x ≤ hi) : clip x lo hi = x := by
  unfold clip
  rw [max_eq_left h1, min_eq_left h2]

theorem listMean_le {l : List ℚ} (hl : l ≠ []) {b : ℚ} (h : ∀ x ∈ l, x ≤ b) :
    listMean l ≤ b := by
  unfold listMean
  have hlen : (0 : ℚ) < l.length := by
    have : 0 < l.length := List.length_pos.mpr hl
    exact_mod_cast this
  rw [div_le_iff₀ hlen]
  have := List.sum_le_card_nsmul l b h
  rw [nsmul_eq_mul] at this
  linarith

theorem le_listMean {l : List ℚ} (hl : l ≠ []) {b : ℚ} (h : ∀ x ∈ l, b ≤ x) :
    b ≤ listMean l := by
  unfold listMean
  have hlen : (0 : ℚ) < l.length := by
    have : 0 < l.length := List.length_pos.mpr hl
    exact_mod_cast this
  rw [le_div_iff₀ hlen]
  have := List.card_nsmul_le_sum l b h
  rw [nsmul_eq_mul] at this
  linarith

/-!
## Chunked Fetcher (`download_nasa_power_data`)

A day of the remote response is modelled by `DayEntry`: one key of the
`T2M` map.  `valid` is whether the `YYYYMMDD` key parses into a real
calendar date (`int(...)`/`datetime(...)` raising `ValueError`
otherwise), `ym` the `(year, month)` it parses to, and the `Option`
fields are the lookups of the same key in the other four variable maps
(`none` = `KeyError`).
-/

structure DayEntry where
  valid : Bool
  ym : ℕ × ℕ
  t2m : ℚ
  t2mMax : Option ℚ
  t2mMin : Option ℚ
  prectot : Option ℚ
  rh2m : Option ℚ
deriving DecidableEq

/-- The `all_data` accumulator: month keys in first-seen order, and the
five parallel lists of per-month day-value lists. -/
structure AllData where
  dates : List (ℕ × ℕ)
  tempsAvg : List (List ℚ)
  tempsMax : List (List ℚ)
  tempsMin : List (List ℚ)
  rainfall : List (List ℚ)
  humidity : List (List ℚ)
deriving DecidableEq

def emptyAllData : AllData :=
  ⟨[], [], [], [], [], []⟩

/-- Append `v` to the inner list at index `i` (`all_data[...][idx].append(v)`). -/
def appendAt (ls : List (List ℚ)) (i : ℕ) (v : ℚ) : List (List ℚ) :=
  ls.set i (ls.getD i [] ++ [v])

/-- The `if date_key not in all_data['dates']` block: register a new month
key together with five fresh empty lists. -/
def ensureKey (st : AllData) (k : ℕ × ℕ) : AllData :=
  if k ∈ st.dates then st
  else
    { dates := st.dates ++ [k]
      tempsAvg := st.tempsAvg ++ [[]]
      tempsMax := st.tempsMax ++ [[]]
      tempsMin := st.tempsMin ++ [[]]
      rainfall := st.rainfall ++ [[]]
      humidity := st.humidity ++ [[]] }

/-- One iteration of `for date_str, temp_avg in properties['T2M'].items()`.
The `try`/`except (KeyError, ValueError, IndexError)` semantics are kept
exactly: a `ValueError` in date parsing aborts before anything is
appended, but a `KeyError` on one of the other four maps aborts *after*
the earlier appends of that day already happened (Python evaluates
`properties['T2M_MAX'][date_str]` only when that append is reached). -/
def processDay (st : AllData) (d : DayEntry) : AllData :=
  if d.valid then
    let st1 := ensureKey st d.ym
    let idx := st1.dates.indexOf d.ym
    let st2 := { st1 with tempsAvg := appendAt st1.tempsAvg idx d.t2m }
    match d.t2mMax with
    | none => st2
    | some vMax =>
      let st3 := { st2 with tempsMax := appendAt st2.tempsMax idx vMax }
      match d.t2mMin with
      | none => st3
      | some vMin =>
        let st4 := { st3 with tempsMin := appendAt st3.tempsMin idx vMin }
        match d.prectot with
        | none => st4
        | some vRain =>
          let st5 := { st4 with rainfall := appendAt st4.rainfall idx vRain }
          match d.rh2m with
          | none => st5
          | some vHum =>
            { st5 with humidity := appendAt st5.humidity idx vHum }
  else st

/-- Process the days of one successful chunk response, in response order. -/
def processDays (st : AllData) (ds : List DayEntry) : AllData :=
  ds.foldl processDay st

/-- Process a sequence of successful chunk responses (the outer
`for year_start in range(...)` loop's accumulation into `all_data`). -/
def processChunks (st : AllData) (cs : List (List DayEntry)) : AllData :=
  cs.foldl processDays st

/-!
### Retry loop

`for attempt in range(3): data = try_request(...); if data is not None:
break; elif attempt < 2: time.sleep((attempt + 1) * 10)`.  `req k` is the
outcome of the `k`-th request (`none` = non-success response or network
error).  The result records the final data, the number of requests
issued, and the list of back-off sleeps performed (in seconds).
-/

def retryChunk (req : ℕ → Option (List DayEntry)) :
    Option (List DayEntry) × ℕ × List ℕ :=
  (List.range 3).foldl
    (fun acc attempt =>
      match acc.1 with
      | some _ => acc
      | none =>
        match req attempt with
        | some d => (some d, attempt + 1, acc.2.2)
        | none =>
          (none, attempt + 1,
            if attempt < 2 then acc.2.2 ++ [(attempt + 1) * 10] else acc.2.2))
    (none, 0, [])

/-!
## Daily-to-Monthly Aggregator

`if (all_data['temps_avg'][i] and ... and all_data['humidity'][i])`
followed by mean/max/min/sum/mean and rounding.
-/

structure MonthLists where
  tempsAvg : List ℚ
  tempsMax : List ℚ
  tempsMin : List ℚ
  rainfall : List ℚ
  humidity : List ℚ
deriving DecidableEq

structure MonthlyRecord where
  ym : ℕ × ℕ
  avgTempC : ℚ
  maxTempC : ℚ
  minTempC : ℚ
  rainfallMm : ℚ
  humidityPct : ℚ
deriving DecidableEq

/-- One iteration of the aggregation loop: emit the month's record iff
all five day-value lists are nonempty (Python truthiness of the `and`). -/
def aggregateMonth (ym : ℕ × ℕ) (m : MonthLists) : Option MonthlyRecord :=
  if m.tempsAvg ≠ [] ∧ m.tempsMax ≠ [] ∧ m.tempsMin ≠ [] ∧
      m.rainfall ≠ [] ∧ m.humidity ≠ [] then
    some { ym := ym
           avgTempC := roundTo 2 (listMean m.tempsAvg)
           maxTempC := roundTo 2 (listMax m.tempsMax)
           minTempC := roundTo 2 (listMin m.tempsMin)
           rainfallMm := roundTo 1 (m.rainfall.sum)
           humidityPct := roundTo 1 (listMean m.humidity) }
  else none

/-- The month-lists of bucket `i` of the accumulator. -/
def monthListsAt (st : AllData) (i : ℕ) : MonthLists :=
  ⟨st.tempsAvg.getD i [], st.tempsMax.getD i [], st.tempsMin.getD i [],
   st.rainfall.getD i [], st.humidity.getD i []⟩

/-- The full `monthly_data` list built from the accumulator (before the
final date sort, which permutes but does not alter records). -/
def aggregateAll (st : AllData) : List MonthlyRecord :=
  (List.range st.dates.length).filterMap
    (fun i => aggregateMonth (st.dates.getD i (0, 0)) (monthListsAt st i))

/-!
## Derived-Index Calculator (`collect_all_nasa_climate_data`)

The rainfall-table enrichment.  `replace(0, 1)` on a pandas series is an
exact-zero replacement, modelled by `if x = 0 then 1 else x`.
-/

/-- Exact-zero replacement, pandas `Series.replace(0, 1)` pointwise. -/
def replaceZeroOne (x : ℚ) : ℚ :=
  if x = 0 then 1 else x

/-- `Rainy_Days = (Rainfall_mm / 5).clip(0, 30).round().astype(int)`. -/
def rainyDays (rain : ℚ) : ℤ :=
  rhe (clip (rain / 5) 0 30)

/-- `Rainfall_Intensity = (Rainfall_mm / Rainy_Days.replace(0, 1)).round(2)`. -/
def rainfallIntensity (rain : ℚ) : ℚ :=
  roundTo 2 (rain / replaceZeroOne (rainyDays rain : ℚ))

/-- `Drought_Index = (1 - Rainfall_mm / expected.replace(0, 1)).clip(0, 1).round(3)`. -/
def droughtIndex (rain baseline : ℚ) : ℚ :=
  roundTo 3 (clip (1 - rain / replaceZeroOne baseline) 0 1)

/-- `Flood_Risk_Index = ((Max_Daily_Rainfall_mm / Rainfall_mm.replace(0, 1)) *
(Rainfall_mm / expected.replace(0, 1))).clip(0, 1).round(3)`. -/
def floodRiskIndex (maxDaily rain baseline : ℚ) : ℚ :=
  roundTo 3 (clip ((maxDaily / replaceZeroOne rain) * (rain / replaceZeroOne baseline)) 0 1)

/-- The formula claimed by the specification for the flood-risk index,
with the concentration denominator guarded as `max(rainfall_mm, 1)`
instead of the source's exact-zero replacement.  Kept separate so the
two can be compared. -/
def floodRiskIndexSpec (maxDaily rain baseline : ℚ) : ℚ :=
  roundTo 3 (clip ((maxDaily / max rain 1) * (rain / replaceZeroOne baseline)) 0 1)

/-- One row of the rainfall table, as far as the baseline computation is
concerned: state, calendar month and monthly rainfall total. -/
structure RainRow where
  state : String
  month : ℕ
  rain : ℚ
deriving DecidableEq

/-- `expected_rainfall = rain_df.groupby(['State', 'Month'])['Rainfall_mm']
.transform('mean')`: the mean rainfall over all rows of the same
`(state, month-of-year)` group. -/
def expectedRainfall (rows : List RainRow) (s : String) (m : ℕ) : ℚ :=
  listMean ((rows.filter (fun r => r.state == s && r.month == m)).map (fun r => r.rain))

/-- The drought index of row `r` within table `rows`. -/
def droughtIndexOf (rows : List RainRow) (r : RainRow) : ℚ :=
  droughtIndex r.rain (expectedRainfall rows r.state r.month)

/-!
## Collection Orchestrator (`collect_all_nasa_climate_data` main loop)
-/

structure Location where
  zone : String
  state : String
deriving DecidableEq

/-- `df is not None and len(df) > 0`: the success test of the per-state loop. -/
def isSuccess (fetch : Location → Option (List MonthlyRecord)) (loc : Location) : Bool :=
  match fetch loc with
  | some df => df ≠ []
  | none => false

/-- The per-location loop body: a successful fetch appends the location's
(tagged) table to the accumulator of per-location tables, a failed one
appends the state name to `failed_states`. -/
def collectStep (fetch : Location → Option (List MonthlyRecord))
    (acc : List (List (Location × MonthlyRecord)) × List String) (loc : Location) :
    List (List (Location × MonthlyRecord)) × List String :=
  match fetch loc with
  | some df =>
    if df ≠ [] then (acc.1 ++ [df.map (fun r => (loc, r))], acc.2)
    else (acc.1, acc.2 ++ [loc.state])
  | none => (acc.1, acc.2 ++ [loc.state])

/-- The orchestrator: iterate all locations, then either concatenate the
per-location tables into the master table (`if all_temperature_data:`
then `pd.concat`) or report total failure (`return None, None, None`).
Returns the optional master table and the failed-state list. -/
def collectAll (fetch : Location → Option (List MonthlyRecord)) (locs : List Location) :
    Option (List (Location × MonthlyRecord)) × List String :=
  let res := locs.foldl (collectStep fetch) ([], [])
  (if res.1 ≠ [] then some res.1.flatten else none, res.2)

/-!
## Claims
-/

/-- C3: a month appears in a location's aggregated output iff all five
tracked variables accumulated at least one day-value for that month;
emptying any single variable's list removes the month entirely. -/
theorem c3_month_emitted_iff_all_variables (ym : ℕ × ℕ) (m : MonthLists) :
    ((aggregateMonth ym m).isSome ↔
      (m.tempsAvg ≠ [] ∧ m.tempsMax ≠ [] ∧ m.tempsMin ≠ [] ∧
        m.rainfall ≠ [] ∧ m.humidity ≠ [])) ∧
    aggregateMonth ym { m with tempsAvg := [] } = none ∧
    aggregateMonth ym { m with tempsMax := [] } = none ∧
    aggregateMonth ym { m with tempsMin := [] } = none ∧
    aggregateMonth ym { m with rainfall := [] } = none ∧
    aggregateMonth ym { m with humidity := [] } = none := by
  refine ⟨?_, ?_, ?_, ?_, ?_, ?_⟩ <;> simp [aggregateMonth]

/-- C4: every emitted month carries the mean of daily avg-temps rounded
to 2 decimals, the max of daily max-temps rounded to 2 decimals, the min
of daily min-temps rounded to 2 decimals, the *sum* of daily
precipitation rounded to 1 decimal, and the mean of daily humidity
rounded to 1 decimal. -/
theorem c4_monthly_aggregate_formulas (ym : ℕ × ℕ) (m : MonthLists)
    (h1 : m.tempsAvg ≠ []) (h2 : m.tempsMax ≠ []) (h3 : m.tempsMin ≠ [])
    (h4 : m.rainfall ≠ []) (h5 : m.humidity ≠ []) :
    aggregateMonth ym m = some
      { ym := ym
        avgTempC := roundTo 2 (m.tempsAvg.sum / m.tempsAvg.length)
        maxTempC := roundTo 2 (listMax m.tempsMax)
        minTempC := roundTo 2 (listMin m.tempsMin)
        rainfallMm := roundTo 1 (m.rainfall.sum)
        humidityPct := roundTo 1 (m.humidity.sum / m.humidity.length) } := by
  simp [aggregateMonth, listMean, h1, h2, h3, h4, h5]

/-- C4, witness: daily avg-temps `[30, 32, 34]` for January 2020 yield
`avg_temp_c = 32.0` (with rainfall as the monthly total 12, not a mean). -/
theorem c4_monthly_aggregate_formulas_witness :
    aggregateMonth (2020, 1) ⟨[30, 32, 34], [36], [25], [5, 7], [60]⟩ =
      some ⟨(2020, 1), 32.0, 36, 25, 12, 60⟩ := by
  rw [c4_monthly_aggregate_formulas (2020, 1) ⟨[30, 32, 34], [36], [25], [5, 7], [60]⟩
    (by simp) (by simp) (by simp) (by simp) (by simp)]
  have e1 : roundTo 2 (([30, 32, 34] : List ℚ).sum / ([30, 32, 34] : List ℚ).length) = 32 := by
    rw [show (([30, 32, 34] : List ℚ).sum / ([30, 32, 34] : List ℚ).length) = 32 by
      simp; norm_num]
    exact roundTo_eq_self (k := 3200) (by norm_num)
  have e2 : roundTo 2 (listMax [36]) = 36 := by
    rw [show listMax [(36 : ℚ)] = 36 from rfl]
    exact roundTo_eq_self (k := 3600) (by norm_num)
  have e3 : roundTo 2 (listMin [25]) = 25 := by
    rw [show listMin [(25 : ℚ)] = 25 from rfl]
    exact roundTo_eq_self (k := 2500) (by norm_num)
  have e4 : roundTo 1 (([5, 7] : List ℚ).sum) = 12 := by
    rw [show (([5, 7] : List ℚ).sum) = 12 by simp; norm_num]
    exact roundTo_eq_self (k := 120) (by norm_num)
  have e5 : roundTo 1 (([60] : List ℚ).sum / ([60] : List ℚ).length) = 60 := by
    rw [show (([60] : List ℚ).sum / ([60] : List ℚ).length) = 60 by simp]
    exact roundTo_eq_self (k := 600) (by norm_num)
  rw [e1, e2, e3, e4, e5]
  norm_num

/-- C1, counterexample: a day present in the `T2M` map whose `T2M_MAX`
lookup fails is *not* dropped entirely — its avg-temp value (here `50`)
has already been appended to the month's `temps_avg` list when the
`KeyError` fires, so the month's avg-temp list is `[30, 50]` while the
max-temp list only holds `[35]`. -/
theorem c1_day_not_dropped_entirely :
    (processDays emptyAllData
      [⟨true, (2020, 1), 30, some 35, some 25, some 5, some 60⟩,
       ⟨true, (2020, 1), 50, none, some 25, some 5, some 60⟩]).tempsAvg = [[30, 50]] ∧
    (processDays emptyAllData
      [⟨true, (2020, 1), 30, some 35, some 25, some 5, some 60⟩,
       ⟨true, (2020, 1), 50, none, some 25, some 5, some 60⟩]).tempsMax = [[35]] := by
  constructor <;> rfl

/-- C1, amended: a day whose *date* is malformed is dropped entirely,
but a day for which one of the other four variable maps is missing is
only partially skipped: every variable preceding the first missing one
(in the source's append order avg, max, min, precipitation, humidity —
so always at least the avg-temp value) is appended to the month's
bucket, and only the first missing variable and those after it are
skipped.  This holds whether or not the day's month already has a
bucket: `st1 = ensureKey st d.ym` is the state after the (exception-free)
bucket registration, `idx` the bucket's index, and the six cases cover
an invalid date, each of the four possible first-missing variables, and
a fully present day. -/
theorem c1_partial_day_retention (st st1 : AllData) (d : DayEntry) (idx : ℕ)
    (hst1 : ensureKey st d.ym = st1) (hidx : st1.dates.indexOf d.ym = idx) :
    (d.valid = false → processDay st d = st) ∧
    (d.valid = true → d.t2mMax = none →
      processDay st d = { st1 with tempsAvg := appendAt st1.tempsAvg idx d.t2m }) ∧
    (∀ vMax, d.valid = true → d.t2mMax = some vMax → d.t2mMin = none →
      processDay st d =
        { st1 with
          tempsAvg := appendAt st1.tempsAvg idx d.t2m
          tempsMax := appendAt st1.tempsMax idx vMax }) ∧
    (∀ vMax vMin, d.valid = true → d.t2mMax = some vMax → d.t2mMin = some vMin →
        d.prectot = none →
      processDay st d =
        { st1 with
          tempsAvg := appendAt st1.tempsAvg idx d.t2m
          tempsMax := appendAt st1.tempsMax idx vMax
          tempsMin := appendAt st1.tempsMin idx vMin }) ∧
    (∀ vMax vMin vRain, d.valid = true → d.t2mMax = some vMax → d.t2mMin = some vMin →
        d.prectot = some vRain → d.rh2m = none →
      processDay st d =
        { st1 with
          tempsAvg := appendAt st1.tempsAvg idx d.t2m
          tempsMax := appendAt st1.tempsMax idx vMax
          tempsMin := appendAt st1.tempsMin idx vMin
          rainfall := appendAt st1.rainfall idx vRain }) ∧
    (∀ vMax vMin vRain vHum, d.valid = true → d.t2mMax = some vMax → d.t2mMin = some vMin →
        d.prectot = some vRain → d.rh2m = some vHum →
      processDay st d =
        { dates := st1.dates
          tempsAvg := appendAt st1.tempsAvg idx d.t2m
          tempsMax := appendAt st1.tempsMax idx vMax
          tempsMin := appendAt st1.tempsMin idx vMin
          rainfall := appendAt st1.rainfall idx vRain
          humidity := appendAt st1.humidity idx vHum }) := by
  subst hst1
  subst hidx
  refine ⟨?_, ?_, ?_, ?_, ?_, ?_⟩
  · intro h
    simp [processDay, h]
  · intro hv hmax
    simp [processDay, hv, hmax]
  · intro vMax hv hmax hmin
    simp [processDay, hv, hmax, hmin]
  · intro vMax vMin hv hmax hmin hrain
    simp [processDay, hv, hmax, hmin, hrain]
  · intro vMax vMin vRain hv hmax hmin hrain hhum
    simp [processDay, hv, hmax, hmin, hrain, hhum]
  · intro vMax vMin vRain vHum hv hmax hmin hrain hhum
    simp [processDay, hv, hmax, hmin, hrain, hhum]

/-- C1, amended, witness: a day with `PRECTOTCORR` missing, arriving for
a month with no bucket yet, registers the bucket and appends its avg,
max and min temps but neither rainfall nor humidity. -/
theorem c1_partial_day_retention_witness :
    processDay emptyAllData ⟨true, (2020, 1), 50, some 35, some 25, none, some 60⟩ =
      ⟨[(2020, 1)], [[50]], [[35]], [[25]], [[]], [[]]⟩ := by
  have h := (c1_partial_day_retention emptyAllData
      ⟨[(2020, 1)], [[]], [[]], [[]], [[]], [[]]⟩
      ⟨true, (2020, 1), 50, some 35, some 25, none, some 60⟩ 0
      (by decide) (by decide)).2.2.2.1 35 25 rfl rfl rfl rfl
  rw [h]
  rfl

/-- C2, counterexample: with every request failing, the fetcher issues
exactly 3 requests and performs exactly *2* back-off waits (`10s` then
`20s`), not 3 retries as claimed (which would require a third wait). -/
theorem c2_two_retries_not_three :
    retryChunk (fun _ => none) = (none, 3, [10, 20]) ∧
    ([10, 20] : List ℕ).length = 2 ∧ (2 : ℕ) ≠ 3 := by
  refine ⟨rfl, rfl, by decide⟩

/-- C2, amended: each chunk is attempted at most 3 times in total (one
initial request plus up to 2 retries); before retry `k` (`k = 1, 2`) the
fetcher waits `10·k` seconds; only after the 3rd consecutive failure is
the sub-range marked failed (result `none`). -/
theorem c2_retry_bound_and_backoff (req : ℕ → Option (List DayEntry)) :
    (retryChunk req).2.1 ≤ 3 ∧
    (retryChunk req).2.2 = [10, 20].take ((retryChunk req).2.1 - 1) ∧
    ((retryChunk req).1 = none → (retryChunk req).2.1 = 3 ∧ (retryChunk req).2.2 = [10, 20]) ∧
    (∀ d, req 0 = some d → retryChunk req = (some d, 1, [])) := by
  have hr : List.range 3 = [0, 1, 2] := rfl
  rcases h0 : req 0 with _ | d0
  · rcases h1 : req 1 with _ | d1
    · rcases h2 : req 2 with _ | d2 <;>
        simp [retryChunk, hr, h0, h1, h2]
    · simp [retryChunk, hr, h0, h1]
  · simp [retryChunk, hr, h0]

/-- C2, amended, witness: persistent failure gives 3 requests and the
two back-off waits `[10, 20]`. -/
theorem c2_retry_bound_and_backoff_witness :
    (retryChunk (fun _ => none)).2.1 = 3 ∧ (retryChunk (fun _ => none)).2.2 = [10, 20] :=
  (c2_retry_bound_and_backoff (fun _ => none)).2.2.1 rfl

/-- `roundTo` of an integer is itself. -/
theorem roundTo_intCast (n : ℕ) (k : ℤ) : roundTo n (k : ℚ) = k :=
  roundTo_eq_self (k := k * 10 ^ n) (by push_cast; ring)

/-- C5, counterexample: the three temperature statistics come from three
*independent* daily series, so over arbitrary daily inputs the invariant
`min_temp_c ≤ avg_temp_c ≤ max_temp_c` fails: daily avg-temps `[50]`,
max-temps `[10]`, min-temps `[20]` produce a record with
`min_temp_c = 20`, `avg_temp_c = 50`, `max_temp_c = 10`. -/
theorem c5_min_avg_max_can_fail :
    aggregateMonth (2020, 1) ⟨[50], [10], [20], [0], [60]⟩ =
      some { ym := (2020, 1), avgTempC := 50, maxTempC := 10, minTempC := 20,
             rainfallMm := 0, humidityPct := 60 } ∧
    ¬((50 : ℚ) ≤ 10) := by
  constructor
  · have h50 : roundTo 2 (listMean [(50 : ℚ)]) = 50 := by
      rw [show listMean [(50 : ℚ)] = ((50 : ℤ) : ℚ) by simp [listMean]]
      exact roundTo_intCast 2 50
    have h10 : roundTo 2 (listMax [(10 : ℚ)]) = 10 := by
      rw [show listMax [(10 : ℚ)] = ((10 : ℤ) : ℚ) by simp [listMax]]
      exact roundTo_intCast 2 10
    have h20 : roundTo 2 (listMin [(20 : ℚ)]) = 20 := by
      rw [show listMin [(20 : ℚ)] = ((20 : ℤ) : ℚ) by simp [listMin]]
      exact roundTo_intCast 2 20
    have h0 : roundTo 1 (0 : ℚ) = 0 := by
      simpa using roundTo_intCast 1 0
    have h60 : roundTo 1 (listMean [(60 : ℚ)]) = 60 := by
      rw [show listMean [(60 : ℚ)] = ((60 : ℤ) : ℚ) by simp [listMean]]
      exact roundTo_intCast 1 60
    simp [aggregateMonth, h50, h10, h20, h0, h60]
  · norm_num

/-- C5, amended: `min_temp_c ≤ avg_temp_c ≤ max_temp_c` holds for every
emitted record whose daily inputs are envelope-consistent, i.e. every
daily avg-temp value of the month lies between the month's smallest
daily min-temp and largest daily max-temp (true of physically coherent
data; the code itself never enforces it). -/
theorem c5_min_avg_max_of_consistent (ym : ℕ × ℕ) (m : MonthLists) (r : MonthlyRecord)
    (hr : aggregateMonth ym m = some r)
    (hlow : ∀ x ∈ m.tempsAvg, listMin m.tempsMin ≤ x)
    (hhigh : ∀ x ∈ m.tempsAvg, x ≤ listMax m.tempsMax) :
    r.minTempC ≤ r.avgTempC ∧ r.avgTempC ≤ r.maxTempC := by
  unfold aggregateMonth at hr
  split_ifs at hr with h
  obtain ⟨h1, _⟩ := h
  obtain rfl := (Option.some.injEq _ _).mp hr
  constructor
  · exact roundTo_mono 2 (le_listMean h1 hlow)
  · exact roundTo_mono 2 (listMean_le h1 hhigh)

/-- C5, amended, witness: a coherent month (`avg [30]`, `max [35]`,
`min [25]`) satisfies the ordering. -/
theorem c5_min_avg_max_of_consistent_witness :
    (25 : ℚ) ≤ 30 ∧ (30 : ℚ) ≤ 35 := by
  have h50 : roundTo 2 (listMean [(30 : ℚ)]) = 30 := by
    rw [show listMean [(30 : ℚ)] = ((30 : ℤ) : ℚ) by simp [listMean]]
    exact roundTo_intCast 2 30
  have h35 : roundTo 2 (listMax [(35 : ℚ)]) = 35 := by
    rw [show listMax [(35 : ℚ)] = ((35 : ℤ) : ℚ) by simp [listMax]]
    exact roundTo_intCast 2 35
  have h25 : roundTo 2 (listMin [(25 : ℚ)]) = 25 := by
    rw [show listMin [(25 : ℚ)] = ((25 : ℤ) : ℚ) by simp [listMin]]
    exact roundTo_intCast 2 25
  have happ := c5_min_avg_max_of_consistent (2020, 1) ⟨[30], [35], [25], [0], [60]⟩
    { ym := (2020, 1), avgTempC := roundTo 2 (listMean [30]),
      maxTempC := roundTo 2 (listMax [35]), minTempC := roundTo 2 (listMin [25]),
      rainfallMm := roundTo 1 (([0] : List ℚ).sum),
      humidityPct := roundTo 1 (listMean [60]) }
    (by simp [aggregateMonth])
    (by intro x hx; simp at hx; subst hx; rw [show listMin [(25 : ℚ)] = 25 from rfl]; norm_num)
    (by intro x hx; simp at hx; subst hx; rw [show listMax [(35 : ℚ)] = 35 from rfl]; norm_num)
  simpa [h50, h35, h25] using happ

/-- C6, counterexample: a state-month whose rainfall is `0` in every
year has baseline `0`; the record's rainfall (`0`) then equals the
baseline exactly, yet the zero-baseline guard divides by `1` and yields
`Drought_Index = 1`, not `0` as the claim asserts. -/
theorem c6_zero_baseline_breaks_zero_shortfall :
    expectedRainfall [⟨"A", 1, 0⟩] "A" 1 = 0 ∧
    droughtIndexOf [⟨"A", 1, 0⟩] ⟨"A", 1, 0⟩ = 1 ∧
    (1 : ℚ) ≠ 0 := by
  have hexp : expectedRainfall [⟨"A", 1, 0⟩] "A" 1 = 0 := by
    have hf : ([⟨"A", 1, 0⟩] : List RainRow).filter
        (fun r => r.state == "A" && r.month == 1) = [⟨"A", 1, 0⟩] := by decide
    unfold expectedRainfall
    rw [hf]
    simp [listMean]
  refine ⟨hexp, ?_, by norm_num⟩
  unfold droughtIndexOf
  rw [hexp]
  unfold droughtIndex replaceZeroOne
  rw [if_pos rfl]
  rw [show (1 - (0 : ℚ) / 1) = ((1 : ℤ) : ℚ) by norm_num]
  rw [clip_of_mem (by norm_num) (by norm_num)]
  exact roundTo_intCast 3 1

/-- C6, amended: `Drought_Index = round(clip(1 - rainfall_mm /
baseline_mm, 0, 1), 3)` with a zero baseline replaced by 1, where the
baseline is the mean rainfall of the row's `(state, month)` group; the
index is always in `[0, 1]`; it is `0` when the rainfall equals a
*nonzero* baseline (with baseline `0` the guard yields `1` instead);
and `0` mm rainfall against a `50` mm baseline gives exactly `1`. -/
theorem c6_drought_index_formula (rows : List RainRow) (r : RainRow) :
    droughtIndexOf rows r =
      roundTo 3 (clip (1 - r.rain /
        (if expectedRainfall rows r.state r.month = 0 then 1
         else expectedRainfall rows r.state r.month)) 0 1) ∧
    0 ≤ droughtIndexOf rows r ∧ droughtIndexOf rows r ≤ 1 ∧
    (expectedRainfall rows r.state r.month ≠ 0 →
      r.rain = expectedRainfall rows r.state r.month → droughtIndexOf rows r = 0) ∧
    (r.rain = 0 → expectedRainfall rows r.state r.month = 50 →
      droughtIndexOf rows r = 1) := by
  unfold droughtIndexOf droughtIndex replaceZeroOne
  refine ⟨rfl, roundTo_nonneg 3 (clip_nonneg _), roundTo_le_one 3 (clip_le_one _), ?_, ?_⟩
  · intro hne heq
    rw [if_neg hne, heq, div_self hne]
    rw [show (1 - (1 : ℚ)) = ((0 : ℤ) : ℚ) by norm_num]
    rw [clip_of_mem (by norm_num) (by norm_num)]
    exact roundTo_intCast 3 0
  · intro h0 h50
    rw [h50, if_neg (by norm_num), h0]
    rw [show ((0 : ℚ) / 50) = 0 by norm_num]
    rw [show (1 - (0 : ℚ)) = ((1 : ℤ) : ℚ) by norm_num]
    rw [clip_of_mem (by norm_num) (by norm_num)]
    exact roundTo_intCast 3 1

/-- C6, amended, witness: the spec scenario — `0` mm rainfall in a
state-month whose two-year history `[0, 100]` has baseline `50` gives
`Drought_Index = 1`. -/
theorem c6_drought_index_formula_witness :
    droughtIndexOf [⟨"B", 7, 0⟩, ⟨"B", 7, 100⟩] ⟨"B", 7, 0⟩ = 1 := by
  have hexp : expectedRainfall [⟨"B", 7, 0⟩, ⟨"B", 7, 100⟩] "B" 7 = 50 := by
    have hf : ([⟨"B", 7, 0⟩, ⟨"B", 7, 100⟩] : List RainRow).filter
        (fun r => r.state == "B" && r.month == 7) = [⟨"B", 7, 0⟩, ⟨"B", 7, 100⟩] := by decide
    unfold expectedRainfall
    rw [hf]
    show listMean [0, 100] = 50
    simp [listMean]
    norm_num
  exact (c6_drought_index_formula [⟨"B", 7, 0⟩, ⟨"B", 7, 100⟩] ⟨"B", 7, 0⟩).2.2.2.2 rfl hexp

/-- C7, counterexample: the concentration denominator is the pandas
`replace(0, 1)`, not `max(rainfall, 1)`: at `max_daily = 1/5`,
`rainfall = 1/2`, `baseline = 1/2` the code divides by `1/2` and yields
`0.4`, while the claimed `max(rainfall, 1)` formula divides by `1` and
yields `0.2`. -/
theorem c7_replace_guard_differs_from_max :
    floodRiskIndex (1/5) (1/2) (1/2) = 2/5 ∧
    floodRiskIndexSpec (1/5) (1/2) (1/2) = 1/5 ∧
    (2/5 : ℚ) ≠ 1/5 := by
  refine ⟨?_, ?_, by norm_num⟩
  · unfold floodRiskIndex replaceZeroOne
    rw [if_neg (by norm_num)]
    rw [show ((1 : ℚ)/5 / (1/2) * (1/2 / (1/2))) = 2/5 by norm_num]
    rw [clip_of_mem (by norm_num) (by norm_num)]
    exact roundTo_eq_self (k := 400) (by norm_num)
  · unfold floodRiskIndexSpec replaceZeroOne
    rw [show max ((1 : ℚ)/2) 1 = 1 by norm_num [max_eq_right]]
    rw [if_neg (by norm_num)]
    rw [show ((1 : ℚ)/5 / 1 * (1/2 / (1/2))) = 1/5 by norm_num]
    rw [clip_of_mem (by norm_num) (by norm_num)]
    exact roundTo_eq_self (k := 200) (by norm_num)

/-- C7, amended: the flood-risk index follows the code's formula with an
*exact-zero* replacement guard on the concentration denominator (a
rainfall strictly between 0 and 1 is used as-is, unlike
`max(rainfall, 1)`); the outer clip keeps the result in `[0, 1]` for all
inputs, and a zero-rainfall record always scores `0`. -/
theorem c7_flood_risk_formula (maxDaily rain baseline : ℚ) :
    0 ≤ floodRiskIndex maxDaily rain baseline ∧
    floodRiskIndex maxDaily rain baseline ≤ 1 ∧
    (rain ≠ 0 → floodRiskIndex maxDaily rain baseline =
      roundTo 3 (clip ((maxDaily / rain) * (rain / replaceZeroOne baseline)) 0 1)) ∧
    (rain = 0 → floodRiskIndex maxDaily rain baseline = 0) := by
  refine ⟨roundTo_nonneg 3 (clip_nonneg _), roundTo_le_one 3 (clip_le_one _), ?_, ?_⟩
  · intro hne
    unfold floodRiskIndex
    rw [show replaceZeroOne rain = rain from if_neg hne]
  · intro h0
    unfold floodRiskIndex
    rw [h0]
    rw [show ((0 : ℚ) / replaceZeroOne baseline) = 0 by norm_num]
    rw [mul_zero]
    rw [show (0 : ℚ) = ((0 : ℤ) : ℚ) by norm_num]
    rw [clip_of_mem (by norm_num) (by norm_num)]
    exact roundTo_intCast 3 0

/-- C7, amended, witness: a zero-rainfall record scores `0`. -/
theorem c7_flood_risk_formula_witness :
    floodRiskIndex 3 0 7 = 0 :=
  (c7_flood_risk_formula 3 0 7).2.2.2 rfl

/-- The rainy-day estimate is a nonnegative integer (clipped below at 0). -/
theorem rainyDays_nonneg (rain : ℚ) : 0 ≤ rainyDays rain := by
  unfold rainyDays
  apply rhe_nonneg
  unfold clip
  exact le_min (le_max_right _ _) (by norm_num)

/-- C8: `Rainfall_Intensity = round(rainfall_mm / max(Rainy_Days, 1), 2)`
— the integer `Rainy_Days` is nonnegative, so the code's exact-zero
replacement coincides with the `max(·, 1)` guard — and a record with
`Rainy_Days = 0` (whose rainfall, as everywhere in the pipeline, is a
1-decimal quantity) has `Rainfall_Intensity = rainfall_mm`. -/
theorem c8_rainfall_intensity_guard (rain : ℚ) :
    rainfallIntensity rain = roundTo 2 (rain / max (rainyDays rain : ℚ) 1) ∧
    (rainyDays rain = 0 → (∃ k : ℤ, rain = (k : ℚ) / 10) →
      rainfallIntensity rain = rain) := by
  have hguard : replaceZeroOne (rainyDays rain : ℚ) = max (rainyDays rain : ℚ) 1 := by
    unfold replaceZeroOne
    rcases eq_or_lt_of_le (rainyDays_nonneg rain) with h0 | hpos
    · rw [if_pos (by exact_mod_cast h0.symm), ← h0]
      norm_num
    · have h1 : (1 : ℤ) ≤ rainyDays rain := hpos
      have h1q : (1 : ℚ) ≤ (rainyDays rain : ℚ) := by exact_mod_cast h1
      rw [if_neg (by positivity), max_eq_left h1q]
  constructor
  · unfold rainfallIntensity
    rw [hguard]
  · intro hzero hdec
    obtain ⟨k, hk⟩ := hdec
    unfold rainfallIntensity
    rw [hzero]
    rw [show replaceZeroOne ((0 : ℤ) : ℚ) = 1 by unfold replaceZeroOne; norm_num]
    rw [div_one]
    exact roundTo_eq_self (k := k * 10) (by rw [hk]; push_cast; ring)

/-- C8, witness: `rainfall = 2.0` mm gives `Rainy_Days = 0` and
`Rainfall_Intensity = 2.0 = rainfall_mm`. -/
theorem c8_rainfall_intensity_guard_witness :
    rainyDays 2 = 0 ∧ rainfallIntensity 2 = 2 := by
  have hrd : rainyDays 2 = 0 := by
    unfold rainyDays
    rw [show clip ((2 : ℚ) / 5) 0 30 = 2/5 from clip_of_mem (by norm_num) (by norm_num)]
    unfold rhe
    rw [show ⌊(2 : ℚ)/5⌋ = 0 by norm_num [Int.floor_eq_iff]]
    norm_num
  exact ⟨hrd, (c8_rainfall_intensity_guard 2).2 hrd ⟨20, by norm_num⟩⟩

/-- C9: the monthly aggregates are independent of how the date window is
split into chunks — folding the per-day accumulation chunk by chunk is
the same as folding it over the concatenated day sequence, so a month
whose days arrive in two chunks yields the same MonthlyRecords as if
all its days had arrived in one chunk. -/
theorem c9_chunk_boundary_independence (st : AllData) (cs : List (List DayEntry)) :
    processChunks st cs = processDays st cs.flatten ∧
    aggregateAll (processChunks st cs) = aggregateAll (processDays st cs.flatten) := by
  have h : processChunks st cs = processDays st cs.flatten := by
    induction cs generalizing st with
    | nil => rfl
    | cons c cs ih =>
      show processChunks (processDays st c) cs = processDays st ((c :: cs).flatten)
      rw [ih (processDays st c)]
      unfold processDays
      rw [List.flatten_cons, List.foldl_append]
  exact ⟨h, by rw [h]⟩

/-- C10: every location whose fetch yields no (or empty) data is
recorded in the failed list while the loop continues over all remaining
locations, and the master table is `none` — a distinct total failure
rather than an empty table — exactly when no location succeeded. -/
theorem c10_orchestrator_failure_handling
    (fetch : Location → Option (List MonthlyRecord)) (locs : List Location) :
    (collectAll fetch locs).2 =
      (locs.filter (fun l => !(isSuccess fetch l))).map (fun l => l.state) ∧
    ((collectAll fetch locs).1 = none ↔ ∀ l ∈ locs, isSuccess fetch l = false) := by
  have key : ∀ (acc : List (List (Location × MonthlyRecord)) × List String),
      (locs.foldl (collectStep fetch) acc).1 =
        acc.1 ++ (locs.filter (fun l => isSuccess fetch l)).map
          (fun l => ((fetch l).getD []).map (fun r => (l, r))) ∧
      (locs.foldl (collectStep fetch) acc).2 =
        acc.2 ++ (locs.filter (fun l => !(isSuccess fetch l))).map (fun l => l.state) := by
    induction locs with
    | nil => intro acc; simp
    | cons l ls ih =>
      intro acc
      rw [List.foldl_cons]
      obtain ⟨ih1, ih2⟩ := ih (collectStep fetch acc l)
      constructor
      · rw [ih1]
        rcases hf : fetch l with _ | df
        · simp [collectStep, isSuccess, hf]
        · rcases hdf : decide (df = []) with _ | _
          · have hne : df ≠ [] := of_decide_eq_false hdf
            simp [collectStep, isSuccess, hf, hne]
          · have he : df = [] := of_decide_eq_true hdf
            subst he
            simp [collectStep, isSuccess, hf]
      · rw [ih2]
        rcases hf : fetch l with _ | df
        · simp [collectStep, isSuccess, hf]
        · rcases hdf : decide (df = []) with _ | _
          · have hne : df ≠ [] := of_decide_eq_false hdf
            simp [collectStep, isSuccess, hf, hne]
          · have he : df = [] := of_decide_eq_true hdf
            subst he
            simp [collectStep, isSuccess, hf]
  obtain ⟨k1, k2⟩ := key ([], [])
  constructor
  · unfold collectAll
    simpa using k2
  · unfold collectAll
    simp only [k1, List.nil_append]
    constructor
    · intro h l hl
      by_contra hbad
      have hsucc : isSuccess fetch l = true := by
        cases hs : isSuccess fetch l
        · exact absurd hs hbad
        · rfl
      have : (locs.filter (fun l => isSuccess fetch l)) ≠ [] := by
        intro hempty
        have := List.filter_eq_nil_iff.mp hempty l hl
        simp [hsucc] at this
      have hne : (locs.filter (fun l => isSuccess fetch l)).map
          (fun l => ((fetch l).getD []).map (fun r => (l, r))) ≠ [] := by
        simpa using this
      simp [hne] at h
    · intro h
      have hempty : locs.filter (fun l => isSuccess fetch l) = [] :=
        List.filter_eq_nil_iff.mpr (fun l hl => by simp [h l hl])
      simp [hempty]

end Climate
